import Mathlib

/-!
Verification of the request-to-model translation and solution-reconstruction
pipeline of the `pyvrp-service` vehicle-routing solver (`solver.py`,
`models.py`).

Modelling conventions:
* Python floats are modelled as exact rationals (`ℚ`); Python ints as `ℤ`/`ℕ`.
* `round` (Python's banker's rounding, half to even) is modelled by `pyRound`;
  `round(x, n)` by `roundTo n`.
* Python strings that undergo character-level processing (`_parse_tw`) are
  modelled as `List Char`; `str.split(sep)` with a one-character separator is
  `splitOnChar`, `str.replace(c, "")` is a filter, `int()` on decimal-digit
  strings is `digitsToNat` (non-digit input raises in Python and is outside
  every claim considered here).
* Transcendental helpers (`math.sin`/`cos`/`atan2` inside `haversine_m`,
  `math.cos` inside `_project`, `math.sqrt` inside `_compute_balance_score`)
  and the external collaborators (OSRM table/route, the PyVRP search engine,
  wall-clock time) are uninterpreted oracle parameters: the functions under
  scrutiny are verified for every possible value these can take.
-/

namespace BetterRoute

/-- Python `round(x)` on an exact rational: round half to even. -/
def pyRound (q : ℚ) : ℤ :=
  let f : ℤ := ⌊q⌋
  if q - f < 1/2 then f
  else if (1 : ℚ)/2 < q - f then f + 1
  else if f % 2 = 0 then f else f + 1

/-- Python `round(x, n)` on an exact rational: round half to even at digit `n`. -/
def roundTo (digits : ℕ) (q : ℚ) : ℚ :=
  (pyRound (q * 10 ^ digits) : ℚ) / 10 ^ digits

def round1 : ℚ → ℚ := roundTo 1
def round2 : ℚ → ℚ := roundTo 2
def round4 : ℚ → ℚ := roundTo 4

/-- `round(x, 6)`, used by `_depot_key` to deduplicate depot coordinates. -/
def round6 : ℚ → ℚ := roundTo 6

/-- Python `int()` on a string of decimal digits. -/
def digitsToNat (l : List Char) : ℕ :=
  l.foldl (fun a c => a * 10 + (c.toNat - 48)) 0

/-- Python `str.split(sep)` for a one-character separator `c`. -/
def splitOnChar (c : Char) : List Char → List (List Char)
  | [] => [[]]
  | x :: xs =>
    let r := splitOnChar c xs
    if x = c then [] :: r
    else
      match r with
      | [] => [[x]]
      | h :: t => (x :: h) :: t

/-- The datetime-stripping prefix of `_to_secs` (solver.py lines 202-210):
when "T" occurs, take the segment after the first "T", remove every "Z",
truncate at the first "+", then truncate at the first non-leading "-". -/
def stripT (s : List Char) : List Char :=
  if 'T' ∈ s then
    let t0 := (splitOnChar 'T' s).getD 1 []
    let t1 := if 'Z' ∈ t0 then t0.filter (fun c => c ≠ 'Z') else t0
    let t2 := if '+' ∈ t1 then (splitOnChar '+' t1).getD 0 [] else t1
    if '-' ∈ t2 ∧ 0 < t2.count '-' ∧ 0 < t2.findIdx (fun c => c == '-') then
      (splitOnChar '-' t2).getD 0 []
    else t2
  else s

/-- `_to_secs` (solver.py lines 200-214): seconds from midnight out of
"HH:MM", "HH:MM:SS" or a full ISO datetime (time-of-day part only). -/
def toSecs (s : List Char) : ℤ :=
  let parts := splitOnChar ':' (stripT s)
  let h : ℤ := (digitsToNat (parts.getD 0 []) : ℤ)
  let m : ℤ := if 1 < parts.length then (digitsToNat (parts.getD 1 []) : ℤ) else 0
  let sec : ℤ := if 2 < parts.length then (digitsToNat (parts.getD 2 []) : ℤ) else 0
  h * 3600 + m * 60 + sec

/-- Python truthiness of an optional string: `None` and `""` are falsy. -/
def pyFalsyStr : Option (List Char) → Bool
  | none => true
  | some s => s.isEmpty

/-- `_parse_tw` (solver.py lines 191-218). -/
def parseTW (startStr endStr : Option (List Char)) : ℤ × ℤ :=
  if pyFalsyStr startStr && pyFalsyStr endStr then (0, 86400)
  else
    ((if pyFalsyStr startStr then 0 else toSecs (startStr.getD [])),
     (if pyFalsyStr endStr then 86400 else toSecs (endStr.getD [])))

/-! ### Request data model (models.py) -/

/-- `models.Order`.  Time-window strings are kept as character lists (see the
module docstring); all other strings are opaque `String`s. -/
structure Order where
  id : String
  tracking_id : String
  address : String
  lat : ℚ
  lng : ℚ
  weight : ℚ := 0
  volume : ℚ := 0
  value : Option ℚ := none
  units : Option ℤ := none
  order_type : Option String := none
  priority : Option ℤ := none
  time_window_start : Option (List Char) := none
  time_window_end : Option (List Char) := none
  service_time : Option ℤ := some 300
  skills : Option (List String) := none
deriving DecidableEq

/-- `models.Vehicle`. -/
structure Vehicle where
  id : String
  identifier : String
  max_weight : ℚ
  max_volume : ℚ
  max_value : Option ℚ := none
  max_units : Option ℤ := none
  max_orders : Option ℤ := none
  origin_lat : Option ℚ := none
  origin_lng : Option ℚ := none
  skills : Option (List String) := none
  speed_factor : Option ℚ := some 1
deriving DecidableEq

/-- `models.Depot`. -/
structure Depot where
  lat : ℚ
  lng : ℚ
  time_window_start : Option (List Char) := none
  time_window_end : Option (List Char) := none
deriving DecidableEq

/-- `models.Config`. -/
structure Config where
  depot : Depot
  objective : String := "BALANCED"
  balance_visits : Bool := false
  max_distance_km : Option ℚ := none
  max_travel_time_minutes : Option ℚ := none
  traffic_factor : Option ℤ := some 50
  route_end_mode : Option String := some "DRIVER_ORIGIN"
  minimize_vehicles : Bool := false
  open_start : Bool := false
  flexible_time_windows : Bool := false
  max_routes : Option ℤ := none
  timeout_seconds : ℤ := 60
deriving DecidableEq

/-- `models.SolveRequest`. -/
structure SolveRequest where
  orders : List Order
  vehicles : List Vehicle
  config : Config
deriving DecidableEq

/-! ### Response data model (models.py) -/

/-- `models.Stop`. -/
structure Stop where
  order_id : String
  tracking_id : String
  address : String
  lat : ℚ
  lng : ℚ
  sequence : ℕ
  arrival_time : ℚ
  service_time : ℚ
  waiting_time : ℚ
deriving DecidableEq

/-- `models.Route`, extended with the realized coordinate sequence
(`route_lats`/`route_lngs` in solver.py) that the code hands to the external
geometry fetch; the encoded polyline itself comes from an external
collaborator and is not modelled. -/
structure RouteOut where
  vehicle_id : String
  vehicle_identifier : String
  stops : List Stop
  total_distance : ℚ
  total_duration : ℚ
  total_service_time : ℚ
  total_travel_time : ℚ
  total_weight : ℚ
  total_volume : ℚ
  route_lats : List ℚ
  route_lngs : List ℚ
deriving DecidableEq

/-- `models.UnassignedOrder`. -/
structure UnassignedOrder where
  order_id : String
  tracking_id : String
  reason : String
deriving DecidableEq

/-- `models.Metrics`. -/
structure Metrics where
  total_distance : ℚ
  total_duration : ℚ
  total_routes : ℕ
  total_stops : ℕ
  computing_time_ms : ℚ
  balance_score : Option ℚ := none
deriving DecidableEq

/-- `models.SolveResponse`. -/
structure SolveResponse where
  routes : List RouteOut
  unassigned : List UnassignedOrder
  metrics : Metrics
deriving DecidableEq

/-! ### Capacity helpers (solver.py lines 127-185) -/

/-- `_detect_active_dimensions`: one entry per physical dimension with some
strictly positive demand, plus the always-present synthetic "orders"
dimension. -/
def detectActiveDims (orders : List Order) (_vehicles : List Vehicle) : List String :=
  ((((if orders.any (fun o => 0 < o.weight) then ["weight"] else []) ++
     (if orders.any (fun o => 0 < o.volume) then ["volume"] else [])) ++
    (if orders.any (fun o => match o.value with
        | some x => decide (0 < x)
        | none => false) then ["value"] else [])) ++
   (if orders.any (fun o => match o.units with
        | some x => decide (0 < x)
        | none => false) then ["units"] else [])) ++ ["orders"]

/-- The "orders" entry of `_capacity_vector`:
`limit = max_orders_override or (v.max_orders if v.max_orders else 999)`.
Python `or`/truthiness: `None` and `0` fall through. -/
def ordersCap (override : Option ℤ) (vmax : Option ℤ) : ℤ :=
  let fallback : ℤ :=
    match vmax with
    | some k => if k ≠ 0 then k else 999
    | none => 999
  match override with
  | some k => if k ≠ 0 then k else fallback
  | none => fallback

/-- One entry of `_capacity_vector`; dimensions not in the `if`-chain are
skipped (`none`). -/
def capEntry (v : Vehicle) (override : Option ℤ) (d : String) : Option ℤ :=
  if d = "weight" then some (pyRound v.max_weight)
  else if d = "volume" then some (pyRound v.max_volume)
  else if d = "value" then
    some (match v.max_value with
          | some x => pyRound x
          | none => 100000)
  else if d = "units" then
    some (match v.max_units with
          | some x => x
          | none => 1000)
  else if d = "orders" then some (ordersCap override v.max_orders)
  else none

/-- `_capacity_vector` (solver.py lines 150-168). -/
def capacityVector (v : Vehicle) (dims : List String) (override : Option ℤ) : List ℤ :=
  dims.filterMap (capEntry v override)

/-- One entry of `_delivery_vector`. -/
def delEntry (o : Order) (d : String) : Option ℤ :=
  if d = "weight" then some (pyRound o.weight)
  else if d = "volume" then some (pyRound o.volume)
  else if d = "value" then
    some (match o.value with
          | some x => pyRound x
          | none => 0)
  else if d = "units" then
    some (match o.units with
          | some x => x
          | none => 0)
  else if d = "orders" then some 1
  else none

/-- `_delivery_vector` (solver.py lines 171-185). -/
def deliveryVector (o : Order) (dims : List String) : List ℤ :=
  dims.filterMap (delEntry o)

/-- The balance cap `math.ceil(len(feasible_orders) / len(vehicles)) + 1`
(solver.py lines 354-357), present only when balancing is on and vehicles
exist. -/
def balancedMaxOrders (balanceVisits : Bool) (feasible : List Order)
    (vehicles : List Vehicle) : Option ℤ :=
  if balanceVisits = true ∧ 0 < vehicles.length then
    some (⌈(feasible.length : ℚ) / (vehicles.length : ℚ)⌉ + 1)
  else none

/-- `effective_max` (solver.py lines 399-401): the vehicle's own (truthy)
`max_orders` when strictly below the balance cap, else the balance cap. -/
def effectiveMaxOrders (balanced : Option ℤ) (vmax : Option ℤ) : Option ℤ :=
  match vmax with
  | none => balanced
  | some k =>
    if k ≠ 0 then
      match balanced with
      | none => some k
      | some b => if k < b then some k else some b
    else balanced

/-! ### Constants, traffic multiplier, edge costs (solver.py lines 26-31,
305-314, 509-534) -/

/-- `DEFAULT_SPEED_MPS = 8.33`. -/
def speedMps : ℚ := 833 / 100

/-- `road_factor = 1.3` (haversine-to-road-distance inflation). -/
def roadFactor : ℚ := 13 / 10

/-- `speed_mult = max(0.1, 1.5 - tf / 100)` (solver.py line 310). -/
def speedMult (tf : ℤ) : ℚ := max (1 / 10) (3 / 2 - (tf : ℚ) / 100)

/-- `duration_mult = 1.0 / speed_mult` (solver.py line 311). -/
def durationMult (tf : ℤ) : ℚ := 1 / speedMult tf

/-- One edge of the distance/duration matrix loop body for `i ≠ j`
(solver.py lines 516-534): OSRM values when the table succeeded and the pair
is reachable, geodesic fallback otherwise; duration always traffic-scaled;
both rounded to integers by `add_edge`.  `hav` is the `haversine_m` value for
the pair (uninterpreted real-valued trigonometry). -/
def edgeCost (useOsrm : Bool) (durEntry distEntry : Option ℚ) (hav durMult : ℚ) : ℤ × ℤ :=
  if useOsrm then
    match durEntry, distEntry with
    | some dur, some dist => (pyRound dist, pyRound (dur * durMult))
    | _, _ =>
      let dist := hav * roadFactor
      let dur := dist / speedMps
      (pyRound dist, pyRound (dur * durMult))
  else
    let dist := hav * roadFactor
    let dur := (dist / speedMps) * durMult
    (pyRound dist, pyRound dur)

/-- The full `n × n` edge loop (solver.py lines 510-534) as a function of the
pair indices: zero-cost self loops, `edgeCost` otherwise.  `havIJ i j` is the
haversine distance between locations `i` and `j`. -/
def buildEdgeMatrix (useOsrm : Bool) (durM distM : ℕ → ℕ → Option ℚ)
    (havIJ : ℕ → ℕ → ℚ) (durMult : ℚ) (i j : ℕ) : ℤ × ℤ :=
  if i = j then (0, 0)
  else edgeCost useOsrm (durM i j) (distM i j) (havIJ i j) durMult

/-! ### Client construction (solver.py lines 457-490) -/

/-- `service_dur = o.service_time if o.service_time else 300`
(solver.py line 472): Python truthiness maps both `None` and `0` to 300. -/
def clientServiceDuration : Option ℤ → ℤ
  | some n => if n ≠ 0 then n else 300
  | none => 300

/-- `svc = order.service_time if order.service_time else 300`
(solver.py line 665), the reconstruction-side copy of the same expression. -/
def stopServiceDuration : Option ℤ → ℤ
  | some n => if n ≠ 0 then n else 300
  | none => 300

/-- A PyVRP client as assembled by `m.add_client` (solver.py lines 479-489). -/
structure Client where
  x : ℤ
  y : ℤ
  delivery : List ℤ
  service_duration : ℤ
  tw_early : ℤ
  tw_late : ℤ
  prize : ℤ
  required : Bool
  name : String
deriving DecidableEq

/-- The client built for one feasible order (solver.py lines 464-489):
projected coordinates (`proj` is the uninterpreted `_project lat lng`),
delivery vector, truthiness-defaulted service duration, tolerance-widened
time window when `flexible_time_windows` is set (`tol = 1800`, else `0`),
prize `priority * 1000` when priority is positive, and `required = True`
(the flag is initialised on line 475 and never changed). -/
def mkClient (proj : ℚ → ℚ → ℤ × ℤ) (dims : List String) (tol : ℤ) (o : Order) : Client :=
  let xy := proj o.lat o.lng
  let tw := parseTW o.time_window_start o.time_window_end
  let twAdj := if tol ≠ 0 then (max 0 (tw.1 - tol), tw.2 + tol) else tw
  let prize : ℤ :=
    match o.priority with
    | some p => if 0 < p then p * 1000 else 0
    | none => 0
  { x := xy.1, y := xy.2,
    delivery := deliveryVector o dims,
    service_duration := clientServiceDuration o.service_time,
    tw_early := twAdj.1, tw_late := twAdj.2,
    prize := prize, required := true, name := o.id }

/-! ### Route-end policy (solver.py lines 385-412) -/

/-- `is_open_end = cfg.route_end_mode == "OPEN_END"` (line 385). -/
def isOpenEnd (mode : Option String) : Bool := mode = some "OPEN_END"

/-- `use_driver_return` (lines 386-388): DRIVER_ORIGIN, or any value outside
the three recognized non-default modes (including `None`). -/
def useDriverReturn (mode : Option String) : Bool :=
  (mode = some "DRIVER_ORIGIN") ||
    !(mode = some "RETURN_TO_DEPOT" ∨ mode = some "SPECIFIC_DEPOT" ∨ mode = some "OPEN_END")

/-- The end-depot index passed to `add_vehicle_type` (lines 407-412), as a
depot-registry index (`0` is the main depot, `startIdx` the vehicle's own
start depot). -/
def endDepotIdx (mode : Option String) (startIdx : ℕ) : ℕ :=
  if isOpenEnd mode then startIdx
  else if useDriverReturn mode then startIdx
  else 0

/-! ### Route reconstruction (solver.py lines 608-739) -/

/-- Per-request context for per-leg distance/duration resolution:
the OSRM availability flag, the shared duration/distance matrices, the
uninterpreted `haversine_m`, the traffic duration multiplier, the feasible
order list and the depot count (clients occupy location indices
`numDepots..`). -/
structure LegCtx where
  useOsrm : Bool
  durM : ℕ → ℕ → Option ℚ
  distM : ℕ → ℕ → Option ℚ
  hav : ℚ → ℚ → ℚ → ℚ → ℚ
  durMult : ℚ
  feasible : List Order
  numDepots : ℕ

/-- Out-of-range client lookups (which would raise `IndexError` in Python and
never occur for valid solver output) default to this order. -/
def defaultOrder : Order :=
  { id := "", tracking_id := "", address := "", lat := 0, lng := 0 }

def defaultVehicle : Vehicle :=
  { id := "", identifier := "", max_weight := 0, max_volume := 0 }

/-- `order = feasible_orders[loc_idx - num_depots]` (solver.py line 644-645). -/
def orderAtLoc (ctx : LegCtx) (locIdx : ℕ) : Order :=
  ctx.feasible.getD (locIdx - ctx.numDepots) defaultOrder

/-- One leg's (distance, duration): matrix values when OSRM succeeded, with a
per-pair geodesic fallback on `null`, duration always traffic-scaled
(solver.py lines 648-661, identically 702-712 for the return leg). -/
def legVals (ctx : LegCtx) (prevIdx locIdx : ℕ) (pLat pLng tLat tLng : ℚ) : ℚ × ℚ :=
  if ctx.useOsrm then
    match ctx.distM prevIdx locIdx, ctx.durM prevIdx locIdx with
    | some d, some t => (d, t * ctx.durMult)
    | _, _ =>
      let d := ctx.hav pLat pLng tLat tLng * roadFactor
      (d, d / speedMps * ctx.durMult)
  else
    let d := ctx.hav pLat pLng tLat tLng * roadFactor
    (d, d / speedMps * ctx.durMult)

/-- The mutable state of the per-route reconstruction loop
(solver.py lines 620-641). -/
structure RecoState where
  stops : List Stop
  dist : ℚ
  travel : ℚ
  service : ℚ
  weight : ℚ
  volume : ℚ
  clock : ℚ
  lats : List ℚ
  lngs : List ℚ
  prevLat : ℚ
  prevLng : ℚ
  prevIdx : ℕ
  seq : ℕ

/-- Loop state before the first visited client: clock at the depot's opening
time, geometry and previous location at the vehicle's own origin. -/
def initState (twS : ℤ) (origin : ℚ × ℚ) (startD : ℕ) : RecoState :=
  { stops := [], dist := 0, travel := 0, service := 0, weight := 0, volume := 0,
    clock := (twS : ℚ), lats := [origin.1], lngs := [origin.2],
    prevLat := origin.1, prevLng := origin.2, prevIdx := startD, seq := 0 }

/-- One iteration of the visit loop (solver.py lines 643-696): resolve the
order, compute the leg, advance the clock by travel, record the stop with the
pre-wait arrival, then advance the clock past waiting and service. -/
def visitStep (ctx : LegCtx) (st : RecoState) (locIdx : ℕ) : RecoState :=
  let o := orderAtLoc ctx locIdx
  let lv := legVals ctx st.prevIdx locIdx st.prevLat st.prevLng o.lat o.lng
  let svc := stopServiceDuration o.service_time
  let arrive := st.clock + lv.2
  let tw := parseTW o.time_window_start o.time_window_end
  let wait := max 0 ((tw.1 : ℚ) - arrive)
  { stops := st.stops ++
      [{ order_id := o.id, tracking_id := o.tracking_id, address := o.address,
         lat := o.lat, lng := o.lng, sequence := st.seq + 1,
         arrival_time := arrive, service_time := (svc : ℚ), waiting_time := wait }],
    dist := st.dist + lv.1,
    travel := st.travel + lv.2,
    service := st.service + (svc : ℚ),
    weight := st.weight + o.weight,
    volume := st.volume + o.volume,
    clock := arrive + wait + (svc : ℚ),
    lats := st.lats ++ [o.lat],
    lngs := st.lngs ++ [o.lng],
    prevLat := o.lat, prevLng := o.lng,
    prevIdx := locIdx,
    seq := st.seq + 1 }

/-- One route of the black-box solver's solution: the owning vehicle index
(encoded in the vehicle-type name `"{v_idx}:{identifier}"` in solver.py and
recovered on line 613) and the ordered visited location indices. -/
structure SolRoute where
  vIdx : ℕ
  visits : List ℕ

/-- Reconstruction of one solution route (solver.py lines 609-739): run the
visit loop from the vehicle's own origin, then — unless the route-end mode is
OPEN_END — append the return leg to the policy-selected end depot to the
totals and to the realized coordinate sequence. -/
def reconstructRoute (ctx : LegCtx) (depotCoords : List (ℚ × ℚ)) (twS : ℤ)
    (openEnd driverRet : Bool) (vehicles : List Vehicle) (startIdxs : List ℕ)
    (r : SolRoute) : RouteOut :=
  let v := vehicles.getD r.vIdx defaultVehicle
  let startD := startIdxs.getD r.vIdx 0
  let origin := depotCoords.getD startD (0, 0)
  let st := r.visits.foldl (visitStep ctx) (initState twS origin startD)
  if openEnd then
    { vehicle_id := v.id, vehicle_identifier := v.identifier, stops := st.stops,
      total_distance := round1 st.dist,
      total_duration := round1 (st.travel + st.service),
      total_service_time := round1 st.service,
      total_travel_time := round1 st.travel,
      total_weight := round2 st.weight, total_volume := round2 st.volume,
      route_lats := st.lats, route_lngs := st.lngs }
  else
    let endD := if driverRet then startD else 0
    let endC := depotCoords.getD endD (0, 0)
    let lastIdx := r.visits.getLastD startD
    let rl := legVals ctx lastIdx endD st.prevLat st.prevLng endC.1 endC.2
    { vehicle_id := v.id, vehicle_identifier := v.identifier, stops := st.stops,
      total_distance := round1 (st.dist + rl.1),
      total_duration := round1 (st.travel + rl.2 + st.service),
      total_service_time := round1 st.service,
      total_travel_time := round1 (st.travel + rl.2),
      total_weight := round2 st.weight, total_volume := round2 st.volume,
      route_lats := st.lats ++ [endC.1], route_lngs := st.lngs ++ [endC.2] }

/-! ### Specification-side clock recurrence for C3.
These definitions transcribe the claim's words: clock initialized to the
depot's opening time; arrival is the clock plus the leg's traffic-adjusted
duration; waiting is `max(0, tw_start − arrival)`; the clock then advances by
waiting plus service before the next leg. -/

/-- The location index travelled *from* when reaching visit `k`. -/
def specPrevIdx (startD : ℕ) (visits : List ℕ) : ℕ → ℕ
  | 0 => startD
  | k + 1 => visits.getD k 0

/-- The coordinate travelled *from* when reaching visit `k`. -/
def specPrevCoord (ctx : LegCtx) (origin : ℚ × ℚ) (visits : List ℕ) : ℕ → ℚ × ℚ
  | 0 => origin
  | k + 1 =>
    ((orderAtLoc ctx (visits.getD k 0)).lat, (orderAtLoc ctx (visits.getD k 0)).lng)

/-- The (distance, duration) of the leg into visit `k`. -/
def specLeg (ctx : LegCtx) (origin : ℚ × ℚ) (startD : ℕ) (visits : List ℕ) (k : ℕ) : ℚ × ℚ :=
  legVals ctx (specPrevIdx startD visits k) (visits.getD k 0)
    (specPrevCoord ctx origin visits k).1 (specPrevCoord ctx origin visits k).2
    (orderAtLoc ctx (visits.getD k 0)).lat (orderAtLoc ctx (visits.getD k 0)).lng

/-- The absolute clock immediately before travelling to visit `k`. -/
def specClock (ctx : LegCtx) (twS : ℤ) (origin : ℚ × ℚ) (startD : ℕ) (visits : List ℕ) : ℕ → ℚ
  | 0 => (twS : ℚ)
  | k + 1 =>
    let o := orderAtLoc ctx (visits.getD k 0)
    let arr := specClock ctx twS origin startD visits k + (specLeg ctx origin startD visits k).2
    arr + max 0 (((parseTW o.time_window_start o.time_window_end).1 : ℚ) - arr) +
      (stopServiceDuration o.service_time : ℚ)

/-- The recorded arrival time at visit `k`: the clock after adding the leg
duration, before waiting and service. -/
def specArrival (ctx : LegCtx) (twS : ℤ) (origin : ℚ × ℚ) (startD : ℕ)
    (visits : List ℕ) (k : ℕ) : ℚ :=
  specClock ctx twS origin startD visits k + (specLeg ctx origin startD visits k).2

/-- The recorded waiting time at visit `k`: `max(0, tw_start − arrival)`. -/
def specWait (ctx : LegCtx) (twS : ℤ) (origin : ℚ × ℚ) (startD : ℕ)
    (visits : List ℕ) (k : ℕ) : ℚ :=
  let o := orderAtLoc ctx (visits.getD k 0)
  max 0 (((parseTW o.time_window_start o.time_window_end).1 : ℚ) -
    specArrival ctx twS origin startD visits k)

/-- The full stop record the claim predicts at visit `k`. -/
def specStop (ctx : LegCtx) (twS : ℤ) (origin : ℚ × ℚ) (startD : ℕ)
    (visits : List ℕ) (k : ℕ) : Stop :=
  let o := orderAtLoc ctx (visits.getD k 0)
  { order_id := o.id, tracking_id := o.tracking_id, address := o.address,
    lat := o.lat, lng := o.lng, sequence := k + 1,
    arrival_time := specArrival ctx twS origin startD visits k,
    service_time := (stopServiceDuration o.service_time : ℚ),
    waiting_time := specWait ctx twS origin startD visits k }

/-! ### Skills pre-filter (solver.py lines 272-303) -/

/-- `set(v.skills) if v.skills else set()`: both `None` and `[]` give the
empty set. -/
def skillsOrEmpty : Option (List String) → List String
  | some l => l
  | none => []

/-- Python set subset `required <= vs` on skill lists. -/
def subsetOf (a b : List String) : Bool := a.all fun s => b.contains s

/-- One assignment into a Python dict: overwrite the existing key or append. -/
def updateDict (d : List (String × List String)) (k : String) (v : List String) :
    List (String × List String) :=
  if d.any (fun p => p.1 = k) then
    d.map fun p => if p.1 = k then (k, v) else p
  else d ++ [(k, v)]

/-- `vehicle_skills = {v.id: set(v.skills) if v.skills else set() for v in vehicles}`
(solver.py lines 273-275); a later vehicle with a duplicate id overwrites the
earlier entry, as in a Python dict comprehension. -/
def vehicleSkillsDict (vehicles : List Vehicle) : List (String × List String) :=
  vehicles.foldl (fun d v => updateDict d v.id (skillsOrEmpty v.skills)) []

/-- The skills test (lines 279-281): an order with a truthy skills list is
infeasible when no dict value contains all of its required skills. -/
def orderInfeasible (dict : List (String × List String)) (o : Order) : Bool :=
  match o.skills with
  | some l => if l.isEmpty then false else !(dict.any fun p => subsetOf l p.2)
  | none => false

/-- `', '.join(o.skills)`. -/
def joinComma (l : List String) : String := String.intercalate ", " l

/-- The unassigned entry recorded for a skill-infeasible order (lines
282-289). -/
def mkSkillUnassigned (o : Order) : UnassignedOrder :=
  { order_id := o.id, tracking_id := o.tracking_id,
    reason := "No vehicle has required skills: " ++ joinComma (skillsOrEmpty o.skills) }

/-! ### Depot registry (solver.py lines 319-346) -/

/-- `_depot_key`: the coordinate rounded to 6 decimal places. -/
def depotKey (lat lng : ℚ) : ℚ × ℚ := (round6 lat, round6 lng)

def lookupIdx (m : List ((ℚ × ℚ) × ℕ)) (k : ℚ × ℚ) : Option ℕ :=
  (m.find? (fun p => p.1 = k)).map Prod.snd

/-- The growing depot registry: coordinates, key-to-index map, and the
per-vehicle start depot indices. -/
structure DepotReg where
  coords : List (ℚ × ℚ)
  keyIdx : List ((ℚ × ℚ) × ℕ)
  startIdxs : List ℕ

/-- One vehicle's registration (lines 336-344): a fresh origin appends a new
depot, a known origin reuses its index, and no origin falls back to the main
depot (index 0). -/
def depotStep (reg : DepotReg) (v : Vehicle) : DepotReg :=
  match v.origin_lat, v.origin_lng with
  | some la, some ln =>
    let k := depotKey la ln
    match lookupIdx reg.keyIdx k with
    | some i => { reg with startIdxs := reg.startIdxs ++ [i] }
    | none =>
      { coords := reg.coords ++ [(la, ln)],
        keyIdx := reg.keyIdx ++ [(k, reg.coords.length)],
        startIdxs := reg.startIdxs ++ [reg.coords.length] }
  | _, _ => { reg with startIdxs := reg.startIdxs ++ [0] }

/-- The full depot registry: main depot first, then one depot per distinct
vehicle origin, plus each vehicle's start index. -/
def buildDepots (depot : Depot) (vehicles : List Vehicle) : List (ℚ × ℚ) × List ℕ :=
  let reg := vehicles.foldl depotStep
    { coords := [(depot.lat, depot.lng)],
      keyIdx := [(depotKey depot.lat depot.lng, 0)],
      startIdxs := [] }
  (reg.coords, reg.startIdxs)

/-! ### Model assembly (solver.py lines 359-534) -/

/-- Python `int()` on a float: truncation toward zero. -/
def pyInt (q : ℚ) : ℤ := q.num / (q.den : ℤ)

/-- A PyVRP vehicle type as assembled by `add_vehicle_type`
(solver.py lines 397-455), with depots as registry indices. -/
structure VehicleType where
  num_available : ℕ
  capacity : List ℤ
  start_depot : ℕ
  end_depot : ℕ
  tw_early : ℤ
  tw_late : ℤ
  unit_distance_cost : ℤ
  unit_duration_cost : ℤ
  fixed_cost : ℤ
  name : String

def mkVehicleType (cfg : Config) (v : Vehicle) (vIdx : ℕ) (dims : List String)
    (balanced : Option ℤ) (depotTwStart depotTwEnd : ℤ) (startDepot : ℕ) : VehicleType :=
  let caps := capacityVector v dims (effectiveMaxOrders balanced v.max_orders)
  let twEarly := if cfg.open_start then 0 else depotTwStart
  let twLate1 :=
    match cfg.max_distance_km with
    | some dkm =>
      let speedKmh := speedMps * speedMult (cfg.traffic_factor.getD 50) * (36 / 10)
      let maxLate := depotTwStart + pyInt (dkm / speedKmh * 3600)
      if maxLate < depotTwEnd then maxLate else depotTwEnd
    | none => depotTwEnd
  let twLate2 :=
    match cfg.max_travel_time_minutes with
    | some mins =>
      let maxLate := depotTwStart + pyInt (mins * 60)
      if maxLate < twLate1 then maxLate else twLate1
    | none => twLate1
  let costs : ℤ × ℤ :=
    if cfg.objective = "DISTANCE" then (1, 0)
    else if cfg.objective = "TIME" then (0, 1)
    else (1, 1)
  { num_available := 1, capacity := caps,
    start_depot := startDepot, end_depot := endDepotIdx cfg.route_end_mode startDepot,
    tw_early := twEarly, tw_late := twLate2,
    unit_distance_cost := costs.1, unit_duration_cost := costs.2,
    fixed_cost := if cfg.minimize_vehicles then 100000 else 0,
    name := toString vIdx ++ ":" ++ v.identifier }

/-- A PyVRP depot as assembled by `add_depot` (lines 367-376). -/
structure DepotSpec where
  x : ℤ
  y : ℤ
  tw_early : ℤ
  tw_late : ℤ

/-- The assembled optimization model handed to the black-box engine. -/
structure BuiltModel where
  depots : List DepotSpec
  vehicleTypes : List VehicleType
  clients : List Client
  edges : ℕ → ℕ → ℤ × ℤ

/-- All external/transcendental inputs of one `solve` call: OSRM table
availability and matrices, `haversine_m`, `_project` (lat, lng, ref_lat),
`math.sqrt`, the black-box search result, and wall-clock time. -/
structure SolveOracle where
  useOsrm : Bool
  durM : ℕ → ℕ → Option ℚ
  distM : ℕ → ℕ → Option ℚ
  hav : ℚ → ℚ → ℚ → ℚ → ℚ
  proj : ℚ → ℚ → ℚ → ℤ × ℤ
  sqrtQ : ℚ → ℚ
  solution : Option (List SolRoute)
  elapsedSec : ℚ

/-- Model assembly (solver.py lines 359-534): depots from the registry,
one vehicle type per vehicle, one client per feasible order, and the full
edge matrix over `[depots..., clients...]`. -/
def buildModel (oracle : SolveOracle) (cfg : Config) (vehicles : List Vehicle)
    (feasible : List Order) : BuiltModel :=
  let tf := cfg.traffic_factor.getD 50
  let dreg := buildDepots cfg.depot vehicles
  let depotCoords := dreg.1
  let startIdxs := dreg.2
  let dtw := parseTW cfg.depot.time_window_start cfg.depot.time_window_end
  let balanced := balancedMaxOrders cfg.balance_visits feasible vehicles
  let dims := detectActiveDims feasible vehicles
  let tol : ℤ := if cfg.flexible_time_windows then 1800 else 0
  let refProj := fun la ln => oracle.proj la ln cfg.depot.lat
  let allCoords := depotCoords ++ feasible.map (fun o => (o.lat, o.lng))
  { depots := depotCoords.map (fun c =>
      let xy := refProj c.1 c.2
      { x := xy.1, y := xy.2, tw_early := dtw.1, tw_late := dtw.2 }),
    vehicleTypes := (List.range vehicles.length).map (fun i =>
      mkVehicleType cfg (vehicles.getD i defaultVehicle) i dims balanced dtw.1 dtw.2
        (startIdxs.getD i 0)),
    clients := feasible.map (mkClient refProj dims tol),
    edges := buildEdgeMatrix oracle.useOsrm oracle.durM oracle.distM
      (fun i j => oracle.hav (allCoords.getD i (0, 0)).1 (allCoords.getD i (0, 0)).2
        (allCoords.getD j (0, 0)).1 (allCoords.getD j (0, 0)).2)
      (durationMult tf) }

/-! ### The solve pipeline's response (solver.py lines 224-772) -/

/-- `_compute_balance_score` (solver.py lines 792-806); `sqrtQ` is the
uninterpreted `math.sqrt`. -/
def computeBalanceScore (sqrtQ : ℚ → ℚ) (routes : List RouteOut) : ℚ :=
  if routes.isEmpty then 1
  else
    let counts : List ℚ := routes.map (fun r => (r.stops.length : ℚ))
    let mean := counts.sum / (counts.length : ℚ)
    if mean = 0 then 1
    else
      let variance := (counts.map (fun c => (c - mean) ^ 2)).sum / (counts.length : ℚ)
      max 0 (1 - sqrtQ variance / mean / 2)

/-- `feasible_orders` (solver.py lines 276-290): the orders that survive the
skills pre-filter. -/
def feasibleOf (req : SolveRequest) : List Order :=
  req.orders.filter (fun o => !orderInfeasible (vehicleSkillsDict req.vehicles) o)

/-- `skill_unassigned` (solver.py lines 277-289). -/
def skillUnOf (req : SolveRequest) : List UnassignedOrder :=
  (req.orders.filter (fun o => orderInfeasible (vehicleSkillsDict req.vehicles) o)).map
    mkSkillUnassigned

/-- The per-request reconstruction context. -/
def solveCtx (oracle : SolveOracle) (req : SolveRequest) (feasible : List Order) : LegCtx :=
  { useOsrm := oracle.useOsrm, durM := oracle.durM, distM := oracle.distM,
    hav := oracle.hav, durMult := durationMult (req.config.traffic_factor.getD 50),
    feasible := feasible,
    numDepots := (buildDepots req.config.depot req.vehicles).1.length }

/-- The reconstructed routes of the black-box solution (solver.py lines
608-739); `solution is None` or zero routes yield the empty list. -/
def solveRoutes (oracle : SolveOracle) (req : SolveRequest) (feasible : List Order) :
    List RouteOut :=
  (oracle.solution.getD []).map
    (reconstructRoute (solveCtx oracle req feasible)
      (buildDepots req.config.depot req.vehicles).1
      (parseTW req.config.depot.time_window_start req.config.depot.time_window_end).1
      (isOpenEnd req.config.route_end_mode) (useDriverReturn req.config.route_end_mode)
      req.vehicles (buildDepots req.config.depot req.vehicles).2)

/-- `assigned_order_ids` (lines 604, 646): the ids visited by any route. -/
def assignedIdsOf (routes : List RouteOut) : List String :=
  (routes.map (fun r => r.stops.map Stop.order_id)).flatten

/-- The capacity/time unassigned entries (solver.py lines 742-751). -/
def capacityUnassigned (feasible : List Order) (assignedIds : List String) :
    List UnassignedOrder :=
  (feasible.filter (fun o => !assignedIds.contains o.id)).map (fun o =>
    { order_id := o.id, tracking_id := o.tracking_id,
      reason := "Could not fit in any vehicle route (capacity/time constraints)" })

/-- `solve` (solver.py lines 224-772) with every external collaborator
replaced by the oracle: the no-order and no-vehicle early returns, the skills
pre-filter, depot registration, reconstruction of the black-box solution,
unassigned assembly and metrics. -/
def solveModel (oracle : SolveOracle) (req : SolveRequest) : SolveResponse :=
  if req.orders.isEmpty then
    { routes := [], unassigned := [],
      metrics := { total_distance := 0, total_duration := 0, total_routes := 0,
                   total_stops := 0,
                   computing_time_ms := round1 (oracle.elapsedSec * 1000),
                   balance_score := none } }
  else if req.vehicles.isEmpty then
    { routes := [],
      unassigned := req.orders.map (fun o =>
        { order_id := o.id, tracking_id := o.tracking_id,
          reason := "No vehicles available" }),
      metrics := { total_distance := 0, total_duration := 0, total_routes := 0,
                   total_stops := 0,
                   computing_time_ms := oracle.elapsedSec * 1000,
                   balance_score := none } }
  else if (feasibleOf req).isEmpty then
    { routes := [], unassigned := skillUnOf req,
      metrics := { total_distance := 0, total_duration := 0, total_routes := 0,
                   total_stops := 0,
                   computing_time_ms := oracle.elapsedSec * 1000,
                   balance_score := none } }
  else
    let routes := solveRoutes oracle req (feasibleOf req)
    let bscore := if 1 < routes.length then computeBalanceScore oracle.sqrtQ routes else 1
    { routes := routes,
      unassigned := skillUnOf req ++
        capacityUnassigned (feasibleOf req) (assignedIdsOf routes),
      metrics := { total_distance := round1 (routes.map RouteOut.total_distance).sum,
                   total_duration := round1 (routes.map RouteOut.total_duration).sum,
                   total_routes := routes.length,
                   total_stops := (routes.map (fun r => r.stops.length)).sum,
                   computing_time_ms := round1 (oracle.elapsedSec * 1000),
                   balance_score := some (round4 bscore) } }

/-! ### Helper lemmas about splitting character lists -/

lemma splitOnChar_not_mem {c : Char} : ∀ {l : List Char}, c ∉ l → splitOnChar c l = [l]
  | [], _ => rfl
  | x :: xs, h => by
    have hx : ¬ x = c := fun hh => h (hh ▸ List.mem_cons_self x xs)
    have hxs : c ∉ xs := fun hh => h (List.mem_cons_of_mem _ hh)
    simp only [splitOnChar, if_neg hx, splitOnChar_not_mem hxs]

lemma splitOnChar_append {c : Char} :
    ∀ {a : List Char} (b : List Char), c ∉ a →
      splitOnChar c (a ++ c :: b) = a :: splitOnChar c b
  | [], b, _ => by simp [splitOnChar]
  | x :: xs, b, h => by
    have hx : ¬ x = c := fun hh => h (hh ▸ List.mem_cons_self x xs)
    have hxs : c ∉ xs := fun hh => h (List.mem_cons_of_mem _ hh)
    simp only [List.cons_append, splitOnChar, if_neg hx]
    rw [List.append_eq, splitOnChar_append b hxs]

lemma digit_ne_special {c : Char} (h : c.isDigit = true) :
    c ≠ ':' ∧ c ≠ 'T' ∧ c ≠ 'Z' ∧ c ≠ '+' ∧ c ≠ '-' := by
  refine ⟨?_, ?_, ?_, ?_, ?_⟩ <;> (rintro rfl; simp [Char.isDigit] at h)

lemma not_mem_of_all_digit {c : Char} {l : List Char}
    (hl : ∀ x ∈ l, x.isDigit = true) (hc : c.isDigit = false) : c ∉ l := by
  intro hmem
  have := hl c hmem
  rw [this] at hc
  exact absurd hc (by decide)

/-- A list of characters consisting only of decimal digits. -/
def IsDigits (l : List Char) : Prop := ∀ c ∈ l, c.isDigit = true

instance (l : List Char) : Decidable (IsDigits l) :=
  inferInstanceAs (Decidable (∀ c ∈ l, c.isDigit = true))

lemma not_special_of_timeChars {l : List Char}
    (hl : ∀ c ∈ l, c.isDigit = true ∨ c = ':') :
    'T' ∉ l ∧ 'Z' ∉ l ∧ '+' ∉ l ∧ '-' ∉ l := by
  refine ⟨?_, ?_, ?_, ?_⟩ <;>
    · intro hmem
      rcases hl _ hmem with h | h <;> exact absurd h (by decide)

lemma timeChars_core {hs ms ss : List Char}
    (dh : IsDigits hs) (dm : IsDigits ms) (ds : IsDigits ss) :
    ∀ c ∈ hs ++ ':' :: (ms ++ ':' :: ss), c.isDigit = true ∨ c = ':' := by
  intro c hc
  simp only [List.mem_append, List.mem_cons] at hc
  rcases hc with h | h | h
  · exact Or.inl (dh c h)
  · exact Or.inr h
  · rcases h with h | h | h
    · exact Or.inl (dm c h)
    · exact Or.inr h
    · exact Or.inl (ds c h)

lemma colon_not_mem {l : List Char} (hl : IsDigits l) : ':' ∉ l :=
  not_mem_of_all_digit hl (by decide)

lemma split_colon_two {hs ms : List Char} (h1 : ':' ∉ hs) (h2 : ':' ∉ ms) :
    splitOnChar ':' (hs ++ ':' :: ms) = [hs, ms] := by
  rw [splitOnChar_append ms h1, splitOnChar_not_mem h2]

lemma split_colon_three {hs ms ss : List Char}
    (h1 : ':' ∉ hs) (h2 : ':' ∉ ms) (h3 : ':' ∉ ss) :
    splitOnChar ':' (hs ++ ':' :: (ms ++ ':' :: ss)) = [hs, ms, ss] := by
  rw [splitOnChar_append _ h1, split_colon_two h2 h3]

lemma toSecs_of_parts_two {s hs ms : List Char}
    (h : splitOnChar ':' (stripT s) = [hs, ms]) :
    toSecs s = (digitsToNat hs : ℤ) * 3600 + (digitsToNat ms : ℤ) * 60 := by
  simp [toSecs, h, List.getD]

lemma toSecs_of_parts_three {s hs ms ss : List Char}
    (h : splitOnChar ':' (stripT s) = [hs, ms, ss]) :
    toSecs s =
      (digitsToNat hs : ℤ) * 3600 + (digitsToNat ms : ℤ) * 60 + (digitsToNat ss : ℤ) := by
  simp [toSecs, h, List.getD]

lemma stripT_of_not_T {s : List Char} (h : 'T' ∉ s) : stripT s = s := by
  simp [stripT, h]

/-- After "T", a plain `core` time made of digits and colons passes through
the stripping logic untouched. -/
lemma stripT_core {core : List Char}
    (hcore : ∀ c ∈ core, c.isDigit = true ∨ c = ':') {d : List Char} (hd : 'T' ∉ d) :
    stripT (d ++ 'T' :: core) = core := by
  obtain ⟨hT, hZ, hP, hM⟩ := not_special_of_timeChars hcore
  have hmem : 'T' ∈ d ++ 'T' :: core := by simp
  have hsplit : splitOnChar 'T' (d ++ 'T' :: core) = [d, core] := by
    rw [splitOnChar_append _ hd, splitOnChar_not_mem hT]
  simp only [stripT, if_pos hmem, hsplit]
  simp [hZ, hP, hM, List.getD]

/-- After "T", a `core ++ "Z"` has the "Z" suffix removed. -/
lemma stripT_core_z {core : List Char}
    (hcore : ∀ c ∈ core, c.isDigit = true ∨ c = ':') {d : List Char} (hd : 'T' ∉ d) :
    stripT (d ++ 'T' :: (core ++ ['Z'])) = core := by
  obtain ⟨hT, hZ, hP, hM⟩ := not_special_of_timeChars hcore
  have hTz : 'T' ∉ core ++ ['Z'] := by
    intro hc; rcases List.mem_append.mp hc with hc | hc
    · exact hT hc
    · simp at hc
  have hmem : 'T' ∈ d ++ 'T' :: (core ++ ['Z']) := by simp
  have hsplit : splitOnChar 'T' (d ++ 'T' :: (core ++ ['Z'])) = [d, core ++ ['Z']] := by
    rw [splitOnChar_append _ hd, splitOnChar_not_mem hTz]
  have hZmem : 'Z' ∈ core ++ ['Z'] := by simp
  have hfilter : (core ++ ['Z']).filter (fun c => c ≠ 'Z') = core := by
    rw [List.filter_append]
    have hself : core.filter (fun c => c ≠ 'Z') = core := by
      apply List.filter_eq_self.mpr
      intro a ha
      simp only [ne_eq, decide_eq_true_eq]
      intro hq
      exact hZ (hq ▸ ha)
    have hz1 : (['Z'] : List Char).filter (fun c => c ≠ 'Z') = [] := by decide
    rw [hself, hz1, List.append_nil]
  simp only [stripT, if_pos hmem, hsplit, List.getD_cons_succ, List.getD_cons_zero]
  rw [if_pos hZmem, hfilter]
  simp [hP, hM]

/-- After "T", a `core ++ "+" ++ offset` is truncated at the "+". -/
lemma stripT_core_plus {core : List Char}
    (hcore : ∀ c ∈ core, c.isDigit = true ∨ c = ':') {d off : List Char}
    (hd : 'T' ∉ d) (hoT : 'T' ∉ off) (hoZ : 'Z' ∉ off) :
    stripT (d ++ 'T' :: (core ++ '+' :: off)) = core := by
  obtain ⟨hT, hZ, hP, hM⟩ := not_special_of_timeChars hcore
  have hTtail : 'T' ∉ core ++ '+' :: off := by
    intro hc
    rcases List.mem_append.mp hc with hc | hc
    · exact hT hc
    · rcases List.mem_cons.mp hc with hc | hc
      · exact absurd hc (by decide)
      · exact hoT hc
  have hmem : 'T' ∈ d ++ 'T' :: (core ++ '+' :: off) := by simp
  have hsplit : splitOnChar 'T' (d ++ 'T' :: (core ++ '+' :: off)) = [d, core ++ '+' :: off] := by
    rw [splitOnChar_append _ hd, splitOnChar_not_mem hTtail]
  have hZtail : 'Z' ∉ core ++ '+' :: off := by
    intro hc
    rcases List.mem_append.mp hc with hc | hc
    · exact hZ hc
    · rcases List.mem_cons.mp hc with hc | hc
      · exact absurd hc (by decide)
      · exact hoZ hc
  have hPmem : '+' ∈ core ++ '+' :: off := by simp
  have hsplitP : splitOnChar '+' (core ++ '+' :: off) = core :: splitOnChar '+' off :=
    splitOnChar_append off hP
  simp only [stripT, if_pos hmem, hsplit, List.getD_cons_succ, List.getD_cons_zero]
  rw [if_neg hZtail, if_pos hPmem, hsplitP]
  simp [hM]

/-- C7: time-window parsing returns `(0, 86400)` when both bounds are absent;
"HH:MM" yields `h*3600 + m*60`; "HH:MM:SS" yields `h*3600 + m*60 + s`; a full
ISO timestamp `date ++ "T" ++ time` yields only the time-of-day value, with a
"Z" suffix or a "+" timezone offset stripped (not converted). -/
theorem c7_time_window_parsing :
    parseTW none none = (0, 86400) ∧
    (∀ hs ms : List Char, IsDigits hs → IsDigits ms →
      toSecs (hs ++ ':' :: ms) =
        (digitsToNat hs : ℤ) * 3600 + (digitsToNat ms : ℤ) * 60) ∧
    (∀ hs ms ss : List Char, IsDigits hs → IsDigits ms → IsDigits ss →
      toSecs (hs ++ ':' :: (ms ++ ':' :: ss)) =
        (digitsToNat hs : ℤ) * 3600 + (digitsToNat ms : ℤ) * 60 + (digitsToNat ss : ℤ)) ∧
    (∀ d hs ms ss off : List Char, 'T' ∉ d →
      IsDigits hs → IsDigits ms → IsDigits ss → 'T' ∉ off → 'Z' ∉ off →
      let core := hs ++ ':' :: (ms ++ ':' :: ss)
      let secs := (digitsToNat hs : ℤ) * 3600 + (digitsToNat ms : ℤ) * 60 + (digitsToNat ss : ℤ)
      toSecs (d ++ 'T' :: core) = secs ∧
      toSecs (d ++ 'T' :: (core ++ ['Z'])) = secs ∧
      toSecs (d ++ 'T' :: (core ++ '+' :: off)) = secs) := by
  refine ⟨rfl, ?_, ?_, ?_⟩
  · intro hs ms dh dm
    have hT : 'T' ∉ hs ++ ':' :: ms := by
      intro hc
      rcases List.mem_append.mp hc with hc | hc
      · exact absurd (dh _ hc) (by decide)
      · rcases List.mem_cons.mp hc with hc | hc
        · exact absurd hc (by decide)
        · exact absurd (dm _ hc) (by decide)
    exact toSecs_of_parts_two
      (by rw [stripT_of_not_T hT, split_colon_two (colon_not_mem dh) (colon_not_mem dm)])
  · intro hs ms ss dh dm ds
    have hT : 'T' ∉ hs ++ ':' :: (ms ++ ':' :: ss) := by
      have := not_special_of_timeChars (timeChars_core dh dm ds)
      exact this.1
    exact toSecs_of_parts_three
      (by rw [stripT_of_not_T hT,
        split_colon_three (colon_not_mem dh) (colon_not_mem dm) (colon_not_mem ds)])
  · intro d hs ms ss off hd dh dm ds hoT hoZ
    have hcore := timeChars_core dh dm ds
    have hsplit := split_colon_three (colon_not_mem dh) (colon_not_mem dm) (colon_not_mem ds)
    refine ⟨?_, ?_, ?_⟩
    · exact toSecs_of_parts_three (by rw [stripT_core hcore hd, hsplit])
    · exact toSecs_of_parts_three (by rw [stripT_core_z hcore hd, hsplit])
    · exact toSecs_of_parts_three (by rw [stripT_core_plus hcore hd hoT hoZ, hsplit])

/-- Witness for C7 at "08:30", "08:30:15" and "2024-01-05T08:30:15"
with "Z" and "+05:00" variants. -/
theorem c7_time_window_parsing_witness :
    toSecs ['0', '8', ':', '3', '0'] = 30600 ∧
    toSecs ['0', '8', ':', '3', '0', ':', '1', '5'] = 30615 ∧
    toSecs ['2', '0', '2', '4', '-', '0', '1', '-', '0', '5', 'T',
            '0', '8', ':', '3', '0', ':', '1', '5', 'Z'] = 30615 := by
  have h2 := c7_time_window_parsing.2.1 ['0', '8'] ['3', '0']
    (by decide) (by decide)
  have h3 := c7_time_window_parsing.2.2.1 ['0', '8'] ['3', '0'] ['1', '5']
    (by decide) (by decide) (by decide)
  have h4 := (c7_time_window_parsing.2.2.2 ['2', '0', '2', '4', '-', '0', '1', '-', '0', '5']
    ['0', '8'] ['3', '0'] ['1', '5'] []
    (by decide) (by decide) (by decide) (by decide) (by decide) (by decide)).2.1
  refine ⟨?_, ?_, ?_⟩
  · rw [show (['0', '8', ':', '3', '0'] : List Char) =
      ['0', '8'] ++ ':' :: ['3', '0'] by rfl, h2]
    decide
  · rw [show (['0', '8', ':', '3', '0', ':', '1', '5'] : List Char) =
      ['0', '8'] ++ ':' :: (['3', '0'] ++ ':' :: ['1', '5']) by rfl, h3]
    decide
  · rw [show (['2', '0', '2', '4', '-', '0', '1', '-', '0', '5', 'T',
      '0', '8', ':', '3', '0', ':', '1', '5', 'Z'] : List Char) =
      ['2', '0', '2', '4', '-', '0', '1', '-', '0', '5'] ++ 'T' ::
        ((['0', '8'] ++ ':' :: (['3', '0'] ++ ':' :: ['1', '5'])) ++ ['Z']) by rfl, h4]
    decide

/-! ### Concrete sample data for witnesses and counterexamples -/

/-- A minimal order at the origin with no optional demands. -/
def sampleOrder : Order :=
  { id := "o1", tracking_id := "t1", address := "a1", lat := 0, lng := 0 }

/-- A minimal vehicle with ample capacity and no optional limits. -/
def sampleVehicle : Vehicle :=
  { id := "v1", identifier := "V-1", max_weight := 100, max_volume := 100 }

/-! ### C6 / C10: capacity vectors and the balance cap -/

lemma capacityVector_getLast (v : Vehicle) (override : Option ℤ) (pre : List String) :
    (capacityVector v (pre ++ ["orders"]) override).getLast? =
      some (ordersCap override v.max_orders) := by
  rw [capacityVector, List.filterMap_append]
  have h1 : List.filterMap (capEntry v override) ["orders"] =
      [ordersCap override v.max_orders] := rfl
  rw [h1, List.getLast?_concat]

lemma deliveryVector_getLast (o : Order) (pre : List String) :
    (deliveryVector o (pre ++ ["orders"])).getLast? = some 1 := by
  rw [deliveryVector, List.filterMap_append]
  have h1 : List.filterMap (delEntry o) ["orders"] = [(1 : ℤ)] := rfl
  rw [h1, List.getLast?_concat]

/-- C6 counterexample: with one feasible order, one vehicle whose
`max_orders` is exactly `0` (present, and strictly smaller than the balance
cap `ceil(1/1) + 1 = 2`), the orders-dimension capacity passed to the model is
`2`, not the vehicle's stated `max_orders = 0` that the claim requires. -/
theorem c6_balance_cap_cex :
    (capacityVector { sampleVehicle with max_orders := some 0 }
        (detectActiveDims [sampleOrder] [{ sampleVehicle with max_orders := some 0 }])
        (effectiveMaxOrders
          (balancedMaxOrders true [sampleOrder] [{ sampleVehicle with max_orders := some 0 }])
          (some 0))).getLast? = some 2 ∧
    ({ sampleVehicle with max_orders := some 0 } : Vehicle).max_orders = some 0 ∧
    (0 : ℤ) < ⌈((1 : ℚ)) / ((1 : ℚ))⌉ + 1 ∧
    (some (2 : ℤ) ≠ some (0 : ℤ)) := by
  refine ⟨?_, rfl, by norm_num, by decide⟩
  rw [show detectActiveDims [sampleOrder] [{ sampleVehicle with max_orders := some 0 }] =
    ([] : List String) ++ ["orders"] by rfl]
  rw [capacityVector_getLast]
  norm_num [balancedMaxOrders, effectiveMaxOrders, ordersCap, sampleOrder]

/-- C6 (amended): with balancing on and at least one vehicle, the
orders-dimension capacity passed to the model is the balance cap
`ceil(N/V) + 1`, or the vehicle's own `max_orders` when that is present,
nonzero, and strictly smaller (a `max_orders` of exactly `0` is Python-falsy
and ignored); each order's demand in that dimension is `1`. -/
theorem c6_balance_cap (feasible : List Order) (vehicles : List Vehicle)
    (v : Vehicle) (o : Order) (hveh : vehicles ≠ []) :
    (capacityVector v (detectActiveDims feasible vehicles)
        (effectiveMaxOrders (balancedMaxOrders true feasible vehicles) v.max_orders)).getLast? =
      some (match v.max_orders with
            | some k =>
              if k ≠ 0 ∧ k < ⌈(feasible.length : ℚ) / (vehicles.length : ℚ)⌉ + 1 then k
              else ⌈(feasible.length : ℚ) / (vehicles.length : ℚ)⌉ + 1
            | none => ⌈(feasible.length : ℚ) / (vehicles.length : ℚ)⌉ + 1) ∧
    (deliveryVector o (detectActiveDims feasible vehicles)).getLast? = some 1 := by
  have hlen : 0 < vehicles.length := List.length_pos.mpr hveh
  set bal : ℤ := ⌈(feasible.length : ℚ) / (vehicles.length : ℚ)⌉ + 1 with hbal
  have hbal_pos : 0 < bal := by
    have h0 : (0 : ℚ) ≤ (feasible.length : ℚ) / (vehicles.length : ℚ) :=
      div_nonneg (by positivity) (by positivity)
    have := Int.ceil_nonneg h0
    omega
  have hbm : balancedMaxOrders true feasible vehicles = some bal := by
    rw [balancedMaxOrders, if_pos ⟨rfl, hlen⟩]
  have hkey : ∀ vmax : Option ℤ,
      ordersCap (effectiveMaxOrders (some bal) vmax) vmax =
        match vmax with
        | some k => if k ≠ 0 ∧ k < bal then k else bal
        | none => bal := by
    intro vmax
    have hbne : bal ≠ 0 := by omega
    cases vmax with
    | none => simp [effectiveMaxOrders, ordersCap, hbne]
    | some k =>
      by_cases hk : k = 0
      · subst hk
        simp [effectiveMaxOrders, ordersCap, hbne]
      · by_cases hlt : k < bal
        · simp [effectiveMaxOrders, ordersCap, hk, hlt]
        · simp [effectiveMaxOrders, ordersCap, hk, hlt, hbne]
  constructor
  · rw [detectActiveDims, capacityVector_getLast, hbm, hkey]
  · rw [detectActiveDims, deliveryVector_getLast]

/-- Witness for C6 at one order, one vehicle with `max_orders = 3`
(cap is `min(3, ceil(1/1)+1) = 2` since `3 ≥ 2`). -/
theorem c6_balance_cap_witness :
    ([(sampleVehicle : Vehicle)] ≠ []) ∧
    (capacityVector sampleVehicle (detectActiveDims [sampleOrder] [sampleVehicle])
        (effectiveMaxOrders (balancedMaxOrders true [sampleOrder] [sampleVehicle])
          sampleVehicle.max_orders)).getLast? = some 2 := by
  refine ⟨by decide, ?_⟩
  have h := (c6_balance_cap [sampleOrder] [sampleVehicle] sampleVehicle sampleOrder
    (by decide)).1
  rw [h]
  norm_num [sampleVehicle]

/-- C10: a missing ceiling on an active dimension yields a finite sentinel
(100000 for value, 1000 for units, 999 for orders), and `max_orders = 0` is
treated exactly like an absent `max_orders` — both in the capacity vector and
in the balance-cap minimum (`effectiveMaxOrders`). -/
theorem c10_capacity_sentinels :
    (∀ v : Vehicle,
      capacityVector { v with max_value := none, max_units := none, max_orders := some 0 }
          ["value", "units", "orders"] none = [100000, 1000, 999] ∧
      capacityVector { v with max_value := none, max_units := none, max_orders := none }
          ["value", "units", "orders"] none = [100000, 1000, 999]) ∧
    (∀ b : Option ℤ, effectiveMaxOrders b (some 0) = b ∧ effectiveMaxOrders b none = b) := by
  constructor
  · intro v
    constructor <;> rfl
  · intro b
    constructor
    · simp [effectiveMaxOrders]
    · rfl

/-! ### C1: fallback edge costs -/

/-- C1 counterexample: with the routing table unavailable, haversine value
`1` and traffic factor 50, the distance cost added to the model is the
rounded integer `1`, not `1 × 1.3 = 1.3` as the claim's "exactly, not
approximately" requires (`add_edge` receives `int(round(dist))`,
solver.py line 532). -/
theorem c1_fallback_edge_cex :
    (buildEdgeMatrix false (fun _ _ => none) (fun _ _ => none) (fun _ _ => 1)
        (durationMult 50) 0 1).1 = 1 ∧
    ((1 : ℚ) ≠ (1 : ℚ) * roadFactor) := by
  constructor
  · norm_num [buildEdgeMatrix, edgeCost, pyRound, roadFactor, speedMps, durationMult, speedMult]
  · norm_num [roadFactor]

/-- C1 (amended): when the table lookup failed, every off-diagonal edge cost
equals `round(haversine(a,b) × 1.3)` for distance and
`round((haversine(a,b) × 1.3 / 8.33) × (1 / max(0.1, 1.5 − tf/100)))` for
duration, where `round` is Python's half-to-even integer rounding; durations
sourced from a successful table lookup are scaled by the same multiplier
before the same rounding. -/
theorem c1_fallback_edge (tf : ℤ) (durM distM : ℕ → ℕ → Option ℚ)
    (havIJ : ℕ → ℕ → ℚ) (i j : ℕ) (hij : i ≠ j) :
    (buildEdgeMatrix false durM distM havIJ (durationMult tf) i j =
      (pyRound (havIJ i j * roadFactor),
       pyRound ((havIJ i j * roadFactor / speedMps) *
         (1 / max (1 / 10) (3 / 2 - (tf : ℚ) / 100))))) ∧
    (∀ d t : ℚ, distM i j = some d → durM i j = some t →
      buildEdgeMatrix true durM distM havIJ (durationMult tf) i j =
        (pyRound d, pyRound (t * (1 / max (1 / 10) (3 / 2 - (tf : ℚ) / 100))))) := by
  constructor
  · simp [buildEdgeMatrix, if_neg hij, edgeCost, durationMult, speedMult]
  · intro d t hd ht
    simp [buildEdgeMatrix, if_neg hij, edgeCost, hd, ht, durationMult, speedMult]

/-- Witness for C1 at traffic factor 50, haversine 1, pair (0, 1). -/
theorem c1_fallback_edge_witness :
    ((0 : ℕ) ≠ 1) ∧
    buildEdgeMatrix false (fun _ _ => none) (fun _ _ => none) (fun _ _ => 1)
        (durationMult 50) 0 1 =
      (pyRound ((fun (_ _ : ℕ) => (1 : ℚ)) 0 1 * roadFactor),
       pyRound (((fun (_ _ : ℕ) => (1 : ℚ)) 0 1 * roadFactor / speedMps) *
         (1 / max (1 / 10) (3 / 2 - ((50 : ℤ) : ℚ) / 100)))) :=
  ⟨by decide,
   (c1_fallback_edge 50 (fun _ _ => none) (fun _ _ => none) (fun _ _ => 1) 0 1 (by decide)).1⟩

/-! ### C8: priority prize and the required flag -/

/-- C8 counterexample: an order with positive priority 5 yields a client with
`required = true` (solver.py line 475 sets `required = True` and it is never
changed), contradicting the claim that positive-priority orders are not
marked required; its prize is `5 × 1000` as claimed. -/
theorem c8_priority_required_cex :
    (mkClient (fun _ _ => (0, 0)) ["orders"] 0
        { sampleOrder with priority := some 5 }).required = true ∧
    (mkClient (fun _ _ => (0, 0)) ["orders"] 0
        { sampleOrder with priority := some 5 }).prize = 5000 := by
  constructor <;> rfl

/-- C8 (amended): each feasible order's client carries prize
`priority × 1000` when priority is present and positive and `0` otherwise,
and every client — with or without positive priority — is marked required. -/
theorem c8_priority_prize (proj : ℚ → ℚ → ℤ × ℤ) (dims : List String)
    (tol : ℤ) (o : Order) :
    ((mkClient proj dims tol o).required = true) ∧
    (∀ p : ℤ, (mkClient proj dims tol { o with priority := some p }).prize =
      if 0 < p then p * 1000 else 0) ∧
    ((mkClient proj dims tol { o with priority := none }).prize = 0) :=
  ⟨rfl, fun _ => rfl, rfl⟩

/-! ### C3: the reconstruction clock simulation refines the spec recurrence -/

lemma take_succ_getD {l : List ℕ} {n : ℕ} (h : n < l.length) :
    l.take (n + 1) = l.take n ++ [l.getD n 0] := by
  rw [List.take_succ]
  congr 1
  rw [List.getElem?_eq_getElem h, List.getD_eq_getElem l 0 h]
  rfl

lemma visitLoop_invariant (ctx : LegCtx) (twS : ℤ) (origin : ℚ × ℚ) (startD : ℕ)
    (visits : List ℕ) :
    ∀ k, k ≤ visits.length →
      ((visits.take k).foldl (visitStep ctx) (initState twS origin startD)).stops =
          (List.range k).map (specStop ctx twS origin startD visits) ∧
      ((visits.take k).foldl (visitStep ctx) (initState twS origin startD)).clock =
          specClock ctx twS origin startD visits k ∧
      ((visits.take k).foldl (visitStep ctx) (initState twS origin startD)).prevIdx =
          specPrevIdx startD visits k ∧
      ((visits.take k).foldl (visitStep ctx) (initState twS origin startD)).prevLat =
          (specPrevCoord ctx origin visits k).1 ∧
      ((visits.take k).foldl (visitStep ctx) (initState twS origin startD)).prevLng =
          (specPrevCoord ctx origin visits k).2 ∧
      ((visits.take k).foldl (visitStep ctx) (initState twS origin startD)).seq = k := by
  intro k
  induction k with
  | zero =>
    intro _
    simp [initState, specClock, specPrevIdx, specPrevCoord]
  | succ k ih =>
    intro hk
    have hkl : k < visits.length := hk
    obtain ⟨hstops, hclock, hprevIdx, hlat, hlng, hseq⟩ := ih hkl.le
    rw [take_succ_getD hkl, List.foldl_append, List.foldl_cons, List.foldl_nil]
    refine ⟨?_, ?_, ?_, ?_, ?_, ?_⟩
    · simp only [visitStep, hstops, hclock, hprevIdx, hlat, hlng, hseq]
      rw [List.range_succ, List.map_append]
      congr 1
    · simp only [visitStep, hclock, hprevIdx, hlat, hlng]
      simp [specClock, specLeg]
    · simp [visitStep, specPrevIdx]
    · simp [visitStep, specPrevCoord]
    · simp [visitStep, specPrevCoord]
    · simp [visitStep, hseq]

/-- C3: the stops produced by the reconstruction loop are exactly those of
the claim's clock recurrence: starting from the depot's opening time, stop
`k`'s `arrival_time` is the clock plus the leg's matrix-or-geodesic,
traffic-adjusted duration (`specArrival`, recorded before waiting and
service), its `waiting_time` is `max(0, tw_start − arrival)` (`specWait`),
and the clock then advances by waiting plus service (`specClock`). -/
theorem c3_clock_simulation (ctx : LegCtx) (twS : ℤ) (origin : ℚ × ℚ)
    (startD : ℕ) (visits : List ℕ) :
    (visits.foldl (visitStep ctx) (initState twS origin startD)).stops =
      (List.range visits.length).map (specStop ctx twS origin startD visits) := by
  have h := (visitLoop_invariant ctx twS origin startD visits visits.length le_rfl).1
  rwa [visits.take_length] at h

/-! ### C2: end-depot policy and the return leg -/

lemma loop_lats (ctx : LegCtx) :
    ∀ (l : List ℕ) (st : RecoState) (pre : List ℚ),
      st.lats = pre ++ st.stops.map Stop.lat →
      (l.foldl (visitStep ctx) st).lats =
        pre ++ ((l.foldl (visitStep ctx) st).stops).map Stop.lat := by
  intro l
  induction l with
  | nil => intro st pre h; simpa using h
  | cons i t ih =>
    intro st pre h
    rw [List.foldl_cons]
    refine ih _ pre ?_
    simp [visitStep, h]

lemma loop_lngs (ctx : LegCtx) :
    ∀ (l : List ℕ) (st : RecoState) (pre : List ℚ),
      st.lngs = pre ++ st.stops.map Stop.lng →
      (l.foldl (visitStep ctx) st).lngs =
        pre ++ ((l.foldl (visitStep ctx) st).stops).map Stop.lng := by
  intro l
  induction l with
  | nil => intro st pre h; simpa using h
  | cons i t ih =>
    intro st pre h
    rw [List.foldl_cons]
    refine ih _ pre ?_
    simp [visitStep, h]

/-- C2: (i) the end depot passed to the model is the main depot (index 0)
exactly for RETURN_TO_DEPOT and SPECIFIC_DEPOT, and the vehicle's own start
depot for DRIVER_ORIGIN, OPEN_END, `None`, and every unrecognized value;
(ii) a reconstructed OPEN_END route carries no return leg: its realized
geometry is the origin followed by its stops' coordinates and its
distance/travel totals are the rounded loop sums; (iii) every non-OPEN_END
route appends the return leg to the policy-selected end coordinate both to
the geometry and to the distance/travel/duration totals. -/
theorem c2_route_end_policy (mode : Option String) (ctx : LegCtx)
    (depotCoords : List (ℚ × ℚ)) (twS : ℤ) (vehicles : List Vehicle)
    (startIdxs : List ℕ) (r : SolRoute) :
    (∀ startIdx : ℕ, endDepotIdx mode startIdx =
      if mode = some "RETURN_TO_DEPOT" ∨ mode = some "SPECIFIC_DEPOT" then 0
      else startIdx) ∧
    (∀ (startD : ℕ) (origin : ℚ × ℚ) (st : RecoState) (out : RouteOut),
      startD = startIdxs.getD r.vIdx 0 →
      origin = depotCoords.getD startD (0, 0) →
      st = r.visits.foldl (visitStep ctx) (initState twS origin startD) →
      out = reconstructRoute ctx depotCoords twS (isOpenEnd mode)
        (useDriverReturn mode) vehicles startIdxs r →
      ((isOpenEnd mode = true →
        out.route_lats = origin.1 :: out.stops.map Stop.lat ∧
        out.route_lngs = origin.2 :: out.stops.map Stop.lng ∧
        out.total_distance = round1 st.dist ∧
        out.total_travel_time = round1 st.travel ∧
        out.total_duration = round1 (st.travel + st.service)) ∧
      (isOpenEnd mode = false →
        out.route_lats =
          (origin.1 :: out.stops.map Stop.lat) ++
            [(depotCoords.getD (endDepotIdx mode startD) (0, 0)).1] ∧
        out.route_lngs =
          (origin.2 :: out.stops.map Stop.lng) ++
            [(depotCoords.getD (endDepotIdx mode startD) (0, 0)).2] ∧
        out.total_distance = round1 (st.dist +
          (legVals ctx (r.visits.getLastD startD) (endDepotIdx mode startD)
            st.prevLat st.prevLng
            (depotCoords.getD (endDepotIdx mode startD) (0, 0)).1
            (depotCoords.getD (endDepotIdx mode startD) (0, 0)).2).1) ∧
        out.total_travel_time = round1 (st.travel +
          (legVals ctx (r.visits.getLastD startD) (endDepotIdx mode startD)
            st.prevLat st.prevLng
            (depotCoords.getD (endDepotIdx mode startD) (0, 0)).1
            (depotCoords.getD (endDepotIdx mode startD) (0, 0)).2).2) ∧
        out.total_duration = round1 (st.travel +
          (legVals ctx (r.visits.getLastD startD) (endDepotIdx mode startD)
            st.prevLat st.prevLng
            (depotCoords.getD (endDepotIdx mode startD) (0, 0)).1
            (depotCoords.getD (endDepotIdx mode startD) (0, 0)).2).2 +
          st.service)))) := by
  constructor
  · intro s
    by_cases h1 : mode = some "RETURN_TO_DEPOT" <;>
      by_cases h2 : mode = some "SPECIFIC_DEPOT" <;>
        by_cases h3 : mode = some "OPEN_END" <;>
          by_cases h4 : mode = some "DRIVER_ORIGIN" <;>
            simp [endDepotIdx, isOpenEnd, useDriverReturn, h1, h2, h3, h4]
  · intro startD origin st out hsD hor hst hout
    subst hsD hor hst hout
    have hlats := loop_lats ctx r.visits
      (initState twS (depotCoords.getD (startIdxs.getD r.vIdx 0) (0, 0)) (startIdxs.getD r.vIdx 0))
      [(depotCoords.getD (startIdxs.getD r.vIdx 0) (0, 0)).1] (by simp [initState])
    have hlngs := loop_lngs ctx r.visits
      (initState twS (depotCoords.getD (startIdxs.getD r.vIdx 0) (0, 0)) (startIdxs.getD r.vIdx 0))
      [(depotCoords.getD (startIdxs.getD r.vIdx 0) (0, 0)).2] (by simp [initState])
    constructor
    · intro hopen
      rw [hopen]
      simp only [reconstructRoute, if_pos rfl]
      and_intros <;> first
        | rfl
        | trivial
        | (rw [hlats]; rfl)
        | (rw [hlngs]; rfl)
    · intro hopen
      have hend : endDepotIdx mode (startIdxs.getD r.vIdx 0) =
          if useDriverReturn mode then startIdxs.getD r.vIdx 0 else 0 := by
        rw [endDepotIdx, hopen]
        simp
      rw [hopen, hend]
      simp only [reconstructRoute, Bool.false_eq_true, if_false]
      and_intros <;> first
        | rfl
        | trivial
        | (rw [hlats]; rfl)
        | (rw [hlngs]; rfl)

/-- Witness for C2: both policy branches instantiated — RETURN_TO_DEPOT and
OPEN_END end-depot selection, plus the OPEN_END reconstruction geometry at a
concrete one-depot instance. -/
theorem c2_route_end_policy_witness :
    (endDepotIdx (some "RETURN_TO_DEPOT") 5 =
      if (some "RETURN_TO_DEPOT" : Option String) = some "RETURN_TO_DEPOT" ∨
         (some "RETURN_TO_DEPOT" : Option String) = some "SPECIFIC_DEPOT" then 0 else 5) ∧
    (endDepotIdx (some "OPEN_END") 5 =
      if (some "OPEN_END" : Option String) = some "RETURN_TO_DEPOT" ∨
         (some "OPEN_END" : Option String) = some "SPECIFIC_DEPOT" then 0 else 5) ∧
    ((reconstructRoute ⟨false, fun _ _ => none, fun _ _ => none, fun _ _ _ _ => 0, 1, [], 1⟩
        [(3, 4)] 0 (isOpenEnd (some "OPEN_END")) (useDriverReturn (some "OPEN_END"))
        [] [] ⟨0, []⟩).route_lats =
      ([(3, 4)].getD (([] : List ℕ).getD (SolRoute.mk 0 []).vIdx 0) ((0 : ℚ), (0 : ℚ))).1 ::
        (reconstructRoute ⟨false, fun _ _ => none, fun _ _ => none, fun _ _ _ _ => 0, 1, [], 1⟩
          [(3, 4)] 0 (isOpenEnd (some "OPEN_END")) (useDriverReturn (some "OPEN_END"))
          [] [] ⟨0, []⟩).stops.map Stop.lat) :=
  ⟨(c2_route_end_policy (some "RETURN_TO_DEPOT")
      ⟨false, fun _ _ => none, fun _ _ => none, fun _ _ _ _ => 0, 1, [], 1⟩
      [(0, 0)] 0 [] [] ⟨0, []⟩).1 5,
   (c2_route_end_policy (some "OPEN_END")
      ⟨false, fun _ _ => none, fun _ _ => none, fun _ _ _ _ => 0, 1, [], 1⟩
      [(0, 0)] 0 [] [] ⟨0, []⟩).1 5,
   (((c2_route_end_policy (some "OPEN_END")
      ⟨false, fun _ _ => none, fun _ _ => none, fun _ _ _ _ => 0, 1, [], 1⟩
      [(3, 4)] 0 [] [] ⟨0, []⟩).2 _ _ _ _ rfl rfl rfl rfl).1 rfl).1⟩

/-! ### C9: a zero service time becomes 300 seconds -/

/-- C9: an order whose `service_time` is exactly `0` (not merely absent)
gets service duration 300 both as the client passed to the model
(solver.py line 472) and as the per-stop service time used during
reconstruction (line 665) — Python truthiness makes `0` indistinguishable
from `None` here, so a zero service time cannot be expressed. -/
theorem c9_zero_service_time :
    clientServiceDuration (some 0) = 300 ∧
    stopServiceDuration (some 0) = 300 ∧
    (∀ (proj : ℚ → ℚ → ℤ × ℤ) (dims : List String) (tol : ℤ) (o : Order),
      (mkClient proj dims tol { o with service_time := some 0 }).service_duration = 300) ∧
    (∀ (ctx : LegCtx) (st : RecoState) (i : ℕ),
      (visitStep ctx st i).stops.map Stop.service_time =
        st.stops.map Stop.service_time ++
          [((stopServiceDuration (orderAtLoc ctx i).service_time : ℤ) : ℚ)]) := by
  refine ⟨rfl, rfl, fun _ _ _ _ => rfl, fun ctx st i => ?_⟩
  simp [visitStep]

/-! ### C5: no-order and no-vehicle early returns -/

/-- C5: a request with zero orders yields empty routes, empty unassigned and
all-zero metrics except compute time; a request with orders but zero vehicles
yields zero routes and every order unassigned with reason
"No vehicles available".  Both are ordinary responses of the total function
`solveModel`, not errors. -/
theorem c5_empty_inputs (oracle : SolveOracle) (req : SolveRequest) :
    (req.orders = [] →
      solveModel oracle req =
        { routes := [], unassigned := [],
          metrics := { total_distance := 0, total_duration := 0, total_routes := 0,
                       total_stops := 0,
                       computing_time_ms := round1 (oracle.elapsedSec * 1000),
                       balance_score := none } }) ∧
    (req.orders ≠ [] → req.vehicles = [] →
      solveModel oracle req =
        { routes := [],
          unassigned := req.orders.map (fun o =>
            { order_id := o.id, tracking_id := o.tracking_id,
              reason := "No vehicles available" }),
          metrics := { total_distance := 0, total_duration := 0, total_routes := 0,
                       total_stops := 0,
                       computing_time_ms := oracle.elapsedSec * 1000,
                       balance_score := none } }) := by
  constructor
  · intro h
    rw [solveModel, if_pos (by simp [h])]
  · intro h1 h2
    rw [solveModel, if_neg (by simp [h1]), if_pos (by simp [h2])]

/-- Witness for C5 at a zero-order request and a one-order, zero-vehicle
request. -/
theorem c5_empty_inputs_witness :
    (solveModel
        ⟨false, fun _ _ => none, fun _ _ => none, fun _ _ _ _ => 0, fun _ _ _ => (0, 0),
         fun _ => 0, none, 0⟩
        { orders := [], vehicles := [sampleVehicle], config := { depot := { lat := 0, lng := 0 } } } =
      { routes := [], unassigned := [],
        metrics := { total_distance := 0, total_duration := 0, total_routes := 0,
                     total_stops := 0, computing_time_ms := round1 (0 * 1000),
                     balance_score := none } }) ∧
    (solveModel
        ⟨false, fun _ _ => none, fun _ _ => none, fun _ _ _ _ => 0, fun _ _ _ => (0, 0),
         fun _ => 0, none, 0⟩
        { orders := [sampleOrder], vehicles := [], config := { depot := { lat := 0, lng := 0 } } } =
      { routes := [],
        unassigned := [sampleOrder].map (fun o =>
          { order_id := o.id, tracking_id := o.tracking_id,
            reason := "No vehicles available" }),
        metrics := { total_distance := 0, total_duration := 0, total_routes := 0,
                     total_stops := 0, computing_time_ms := 0 * 1000,
                     balance_score := none } }) :=
  ⟨(c5_empty_inputs _ _).1 rfl, (c5_empty_inputs _ _).2 (by simp) rfl⟩

/-! ### C4: the skills pre-filter -/

lemma dict_values_aux :
    ∀ (vs : List Vehicle) (acc : List (String × List String))
      (p : String × List String),
      p ∈ vs.foldl (fun d v => updateDict d v.id (skillsOrEmpty v.skills)) acc →
      p ∈ acc ∨ ∃ v ∈ vs, p.2 = skillsOrEmpty v.skills := by
  intro vs
  induction vs with
  | nil =>
    intro acc p hp
    exact Or.inl hp
  | cons v t ih =>
    intro acc p hp
    rw [List.foldl_cons] at hp
    rcases ih _ p hp with hacc | ⟨w, hw, he⟩
    · rw [updateDict] at hacc
      by_cases hc : (acc.any (fun q => q.1 = v.id)) = true
      · rw [if_pos hc] at hacc
        obtain ⟨q, hq, he⟩ := List.mem_map.mp hacc
        by_cases hq1 : q.1 = v.id
        · rw [if_pos hq1] at he
          exact Or.inr ⟨v, List.mem_cons_self v t, by rw [← he]⟩
        · rw [if_neg hq1] at he
          exact Or.inl (he ▸ hq)
      · rw [if_neg hc] at hacc
        rcases List.mem_append.mp hacc with h | h
        · exact Or.inl h
        · have : p = (v.id, skillsOrEmpty v.skills) := by simpa using h
          exact Or.inr ⟨v, List.mem_cons_self v t, by rw [this]⟩
    · exact Or.inr ⟨w, List.mem_cons_of_mem _ hw, he⟩

lemma infeasible_of_no_vehicle {vehicles : List Vehicle} {o : Order} {l : List String}
    (hsk : o.skills = some l) (hne : l ≠ [])
    (hno : ∀ v ∈ vehicles, subsetOf l (skillsOrEmpty v.skills) = false) :
    orderInfeasible (vehicleSkillsDict vehicles) o = true := by
  simp only [orderInfeasible, hsk]
  rw [if_neg (by simpa using hne)]
  rw [Bool.not_eq_true', List.any_eq_false]
  intro p hp
  rcases dict_values_aux vehicles [] p hp with h | ⟨v, hv, he⟩
  · simp at h
  · rw [he, hno v hv]
    simp

lemma countP_orders_id {orders : List Order} {o : Order}
    (hmem : o ∈ orders) (hnodup : (orders.map Order.id).Nodup) :
    orders.countP (fun x => x.id == o.id) = 1 := by
  have h1 : orders.countP (fun x => x.id == o.id) = (orders.map Order.id).count o.id := by
    rw [List.count, List.countP_map]
    rfl
  rw [h1]
  exact List.count_eq_one_of_mem hnodup (List.mem_map_of_mem Order.id hmem)

lemma skillUn_countP {orders : List Order} {dict : List (String × List String)}
    {o : Order} (hmem : o ∈ orders) (hinf : orderInfeasible dict o = true)
    (hnodup : (orders.map Order.id).Nodup) (p : UnassignedOrder → Bool)
    (hpo : p (mkSkillUnassigned o) = true)
    (hpid : ∀ u, p u = true → u.order_id = o.id) :
    ((orders.filter (fun x => orderInfeasible dict x)).map mkSkillUnassigned).countP p = 1 := by
  rw [List.countP_map, List.countP_filter]
  simp only [Function.comp_apply, Function.comp]
  have hub : orders.countP (fun x => p (mkSkillUnassigned x) && orderInfeasible dict x) ≤ 1 := by
    rw [← countP_orders_id hmem hnodup]
    apply List.countP_mono_left
    intro a _ ha
    have := hpid _ (Bool.and_elim_left ha)
    simp only [mkSkillUnassigned] at this
    simpa using this
  have hlb : 0 < orders.countP (fun x => p (mkSkillUnassigned x) && orderInfeasible dict x) := by
    rw [List.countP_pos_iff]
    exact ⟨o, hmem, by simp [hpo, hinf]⟩
  omega

lemma nodup_id_inj {orders : List Order} (hnodup : (orders.map Order.id).Nodup)
    {a b : Order} (ha : a ∈ orders) (hb : b ∈ orders) (hid : a.id = b.id) : a = b :=
  List.inj_on_of_nodup_map hnodup ha hb hid

lemma loop_stop_ids (ctx : LegCtx) :
    ∀ (l : List ℕ) (st : RecoState) (s : Stop),
      s ∈ (l.foldl (visitStep ctx) st).stops →
      s ∈ st.stops ∨ ∃ i ∈ l, s.order_id = (orderAtLoc ctx i).id := by
  intro l
  induction l with
  | nil =>
    intro st s hs
    exact Or.inl hs
  | cons i t ih =>
    intro st s hs
    rw [List.foldl_cons] at hs
    rcases ih _ s hs with h | ⟨j, hj, hid⟩
    · simp only [visitStep, List.mem_append, List.mem_singleton] at h
      rcases h with h | h
      · exact Or.inl h
      · exact Or.inr ⟨i, List.mem_cons_self i t, by rw [h]⟩
    · exact Or.inr ⟨j, List.mem_cons_of_mem _ hj, hid⟩

lemma reconstructRoute_stops (ctx : LegCtx) (dc : List (ℚ × ℚ)) (twS : ℤ)
    (oe dr : Bool) (veh : List Vehicle) (si : List ℕ) (r : SolRoute) :
    (reconstructRoute ctx dc twS oe dr veh si r).stops =
      (r.visits.foldl (visitStep ctx)
        (initState twS (dc.getD (si.getD r.vIdx 0) (0, 0)) (si.getD r.vIdx 0))).stops := by
  rw [reconstructRoute]
  cases oe <;> simp

lemma stops_ids_feasible (ctx : LegCtx) (dc : List (ℚ × ℚ)) (twS : ℤ)
    (oe dr : Bool) (veh : List Vehicle) (si : List ℕ) (r : SolRoute)
    (hb : ∀ i ∈ r.visits, ctx.numDepots ≤ i ∧ i < ctx.numDepots + ctx.feasible.length) :
    ∀ s ∈ (reconstructRoute ctx dc twS oe dr veh si r).stops,
      ∃ o' ∈ ctx.feasible, s.order_id = o'.id := by
  intro s hs
  rw [reconstructRoute_stops] at hs
  rcases loop_stop_ids ctx r.visits _ s hs with h | ⟨i, hi, hid⟩
  · simp [initState] at h
  · obtain ⟨h1, h2⟩ := hb i hi
    have hlen : i - ctx.numDepots < ctx.feasible.length := by omega
    refine ⟨ctx.feasible.getD (i - ctx.numDepots) defaultOrder, ?_, by
      rw [hid]; rfl⟩
    rw [List.getD_eq_getElem _ _ hlen]
    exact List.getElem_mem hlen

/-- C4 counterexample: the reason string written by the code starts with a
capital "N" (`"No vehicle has required skills: "`, solver.py line 286), not
the claim's lowercase `"no vehicle has required skills: "`; and with zero
vehicles the skills reason is never produced at all — the order is unassigned
with `"No vehicles available"` instead. -/
theorem c4_skill_reason_cex :
    (solveModel
        ⟨false, fun _ _ => none, fun _ _ => none, fun _ _ _ _ => 0, fun _ _ _ => (0, 0),
         fun _ => 0, none, 0⟩
        { orders := [{ sampleOrder with skills := some ["frozen"] }],
          vehicles := [sampleVehicle],
          config := { depot := { lat := 0, lng := 0 } } }).unassigned =
      [{ order_id := "o1", tracking_id := "t1",
         reason := "No vehicle has required skills: frozen" }] ∧
    ("No vehicle has required skills: frozen" ≠ "no vehicle has required skills: frozen") ∧
    (solveModel
        ⟨false, fun _ _ => none, fun _ _ => none, fun _ _ _ _ => 0, fun _ _ _ => (0, 0),
         fun _ => 0, none, 0⟩
        { orders := [{ sampleOrder with skills := some ["frozen"] }],
          vehicles := [],
          config := { depot := { lat := 0, lng := 0 } } }).unassigned =
      [{ order_id := "o1", tracking_id := "t1", reason := "No vehicles available" }] := by
  refine ⟨rfl, by decide, rfl⟩

/-- C4 (amended): given at least one vehicle and distinct order ids, every
order whose required skill set is non-empty and not a subset of any vehicle's
skill set appears exactly once in the response's unassigned list, with reason
`"No vehicle has required skills: "` (capital N) followed by the comma-joined
skill list, and never appears in any route's stops. -/
theorem c4_skill_filter (oracle : SolveOracle) (req : SolveRequest) (o : Order)
    (l : List String)
    (hmem : o ∈ req.orders) (hsk : o.skills = some l) (hne : l ≠ [])
    (hno : ∀ v ∈ req.vehicles, subsetOf l (skillsOrEmpty v.skills) = false)
    (hnodup : (req.orders.map Order.id).Nodup)
    (hveh : req.vehicles ≠ [])
    (hvalid : ∀ rs, oracle.solution = some rs → ∀ r ∈ rs, ∀ i ∈ r.visits,
      (buildDepots req.config.depot req.vehicles).1.length ≤ i ∧
      i < (buildDepots req.config.depot req.vehicles).1.length +
        (req.orders.filter
          (fun x => !orderInfeasible (vehicleSkillsDict req.vehicles) x)).length) :
    ((solveModel oracle req).unassigned.countP
      (fun u => u.order_id == o.id &&
        u.reason == "No vehicle has required skills: " ++ joinComma l) = 1) ∧
    ((solveModel oracle req).unassigned.countP (fun u => u.order_id == o.id) = 1) ∧
    (∀ r ∈ (solveModel oracle req).routes, ∀ s ∈ r.stops, s.order_id ≠ o.id) := by
  have hinf : orderInfeasible (vehicleSkillsDict req.vehicles) o = true :=
    infeasible_of_no_vehicle hsk hne hno
  have hordne : ¬req.orders.isEmpty = true := by
    simp only [List.isEmpty_iff]
    intro h
    rw [h] at hmem
    exact absurd hmem (List.not_mem_nil o)
  have hvehne : ¬req.vehicles.isEmpty = true := by
    simpa [List.isEmpty_iff] using hveh
  have hreason : (mkSkillUnassigned o).reason =
      "No vehicle has required skills: " ++ joinComma l := by
    simp [mkSkillUnassigned, hsk, skillsOrEmpty]
  -- counting in the skills part
  have hc1 : (skillUnOf req).countP
      (fun u => u.order_id == o.id &&
        u.reason == "No vehicle has required skills: " ++ joinComma l) = 1 := by
    apply skillUn_countP hmem hinf hnodup
    · rw [Bool.and_eq_true]
      refine ⟨by simp [mkSkillUnassigned], ?_⟩
      rw [hreason]
      simp
    · intro u hu
      have := Bool.and_elim_left hu
      simpa using this
  have hc2 : (skillUnOf req).countP (fun u => u.order_id == o.id) = 1 := by
    apply skillUn_countP hmem hinf hnodup
    · simp [mkSkillUnassigned]
    · intro u hu
      simpa using hu
  -- the capacity part mentions only feasible orders, whose ids differ from o's
  have hfeas : ∀ o' ∈ feasibleOf req, o'.id ≠ o.id := by
    intro o' ho' heq
    have ho'o : o' ∈ req.orders := List.mem_of_mem_filter ho'
    have : o' = o := nodup_id_inj hnodup ho'o hmem heq
    subst this
    have := List.of_mem_filter ho'
    rw [hinf] at this
    exact absurd this (by simp)
  have hcap : ∀ (asn : List String) (p : UnassignedOrder → Bool),
      (∀ u, p u = true → u.order_id = o.id) →
      (capacityUnassigned (feasibleOf req) asn).countP p = 0 := by
    intro asn p hp
    apply List.countP_eq_zero.mpr
    intro u hu hpu
    obtain ⟨x, hx, hxe⟩ := List.mem_map.mp hu
    have hxid : x.id = o.id := by
      have := hp u hpu
      rw [← hxe] at this
      exact this
    exact hfeas x (List.mem_of_mem_filter hx) hxid
  by_cases hfe : ((feasibleOf req).isEmpty) = true
  · have hsm : (solveModel oracle req).unassigned = skillUnOf req ∧
        (solveModel oracle req).routes = [] := by
      rw [solveModel, if_neg hordne, if_neg hvehne, if_pos hfe]
      exact ⟨rfl, rfl⟩
    rw [hsm.1, hsm.2]
    refine ⟨hc1, hc2, ?_⟩
    intro r hr
    exact absurd hr (List.not_mem_nil r)
  · have hsm : (solveModel oracle req).unassigned =
        skillUnOf req ++ capacityUnassigned (feasibleOf req)
          (assignedIdsOf (solveRoutes oracle req (feasibleOf req))) ∧
        (solveModel oracle req).routes = solveRoutes oracle req (feasibleOf req) := by
      rw [solveModel, if_neg hordne, if_neg hvehne, if_neg hfe]
      exact ⟨rfl, rfl⟩
    rw [hsm.1, hsm.2]
    refine ⟨?_, ?_, ?_⟩
    · rw [List.countP_append, hc1,
        hcap _ _ (fun u hu => by simpa using Bool.and_elim_left hu)]
    · rw [List.countP_append, hc2, hcap _ _ (fun u hu => by simpa using hu)]
    · intro r hr s hs heq
      obtain ⟨sr, hsr, hre⟩ := List.mem_map.mp hr
      cases hsol : oracle.solution with
      | none =>
        rw [hsol] at hsr
        exact absurd hsr (List.not_mem_nil sr)
      | some rs =>
        rw [hsol] at hsr
        simp only [Option.getD_some] at hsr
        have hb := hvalid rs hsol sr hsr
        have hstop := stops_ids_feasible
          (solveCtx oracle req (feasibleOf req))
          (buildDepots req.config.depot req.vehicles).1
          (parseTW req.config.depot.time_window_start req.config.depot.time_window_end).1
          (isOpenEnd req.config.route_end_mode) (useDriverReturn req.config.route_end_mode)
          req.vehicles (buildDepots req.config.depot req.vehicles).2 sr
          hb s (by rw [← hre] at hs; exact hs)
        obtain ⟨o', ho', hid⟩ := hstop
        exact hfeas o' ho' (by rw [← hid, heq])

/-- Witness for C4 at a one-order, one-vehicle request where the order
requires the skill "frozen" and the vehicle has no skills. -/
theorem c4_skill_filter_witness :
    (solveModel
        ⟨false, fun _ _ => none, fun _ _ => none, fun _ _ _ _ => 0, fun _ _ _ => (0, 0),
         fun _ => 0, none, 0⟩
        { orders := [{ sampleOrder with skills := some ["frozen"] }],
          vehicles := [sampleVehicle],
          config := { depot := { lat := 0, lng := 0 } } }).unassigned.countP
      (fun u => u.order_id == ({ sampleOrder with skills := some ["frozen"] } : Order).id) = 1 :=
  (c4_skill_filter
    ⟨false, fun _ _ => none, fun _ _ => none, fun _ _ _ _ => 0, fun _ _ _ => (0, 0),
     fun _ => 0, none, 0⟩
    { orders := [{ sampleOrder with skills := some ["frozen"] }],
      vehicles := [sampleVehicle],
      config := { depot := { lat := 0, lng := 0 } } }
    { sampleOrder with skills := some ["frozen"] } ["frozen"]
    (by decide) rfl (by decide) (by decide) (by decide) (by decide)
    (fun rs h => Option.noConfusion h)).2.1

end BetterRoute
